import Mathlib

/-!
Verification of `src/request_fixture.py`: a pedagogical pytest file whose
fixtures read the `request` context object, branch on markers, fetch other
fixtures dynamically, and register finalizers.  We shallowly embed the
fixtures as pure Lean functions over an explicit `Request` structure.
Python dictionaries are association lists with first-match lookup and
in-place update; a fallible `request.getfixturevalue` is a function into
`Except`.  Parts of the external fixture resolver that the file merely
consumes (parameter sweeps, the finalizer queue, the test lifecycle) are
modelled from the spec where a claim needs them; each such definition is
marked in its doc comment.
-/

namespace RequestFixture

/-- Python values occurring in the file: strings, ints, booleans, lists of
ints, and `None`. -/
inductive Value where
  | str (s : String)
  | int (n : Int)
  | bool (b : Bool)
  | intList (l : List Int)
  | pyNone
  deriving DecidableEq, Repr

/-- A Python dict with string keys, as an association list in insertion
order. -/
abbrev Dict := List (String × Value)

/-- Dict lookup: first binding of the key wins (bindings are unique in
dicts built by `Dict.set`). -/
def Dict.get? : Dict → String → Option Value
  | [], _ => none
  | (k', v') :: rest, k => if k' = k then some v' else Dict.get? rest k

/-- Python dict update `d[k] = v`: replace the binding in place when the
key exists, otherwise append it. -/
def Dict.set : Dict → String → Value → Dict
  | [], k, v => [(k, v)]
  | (k', v') :: rest, k, v =>
      if k' = k then (k, v) :: rest else (k', v') :: Dict.set rest k v

/-- The scope of a fixture; the spec's data model declares exactly the
four levels function/class/module/session. -/
inductive Scope where
  | function
  | cls
  | module
  | session
  deriving DecidableEq, Repr

/-- The string pytest reports for each scope level. -/
def Scope.toString : Scope → String
  | .function => "function"
  | .cls => "class"
  | .module => "module"
  | .session => "session"

/-- The collection node of a test: its name and the markers visible from
it, ordered from nearest (the node itself) to farthest ancestor. -/
structure Node where
  name : String
  markers : List String
  deriving DecidableEq, Repr

/-- `request.node.get_closest_marker(m)`: the nearest marker with the
given name, walking from the node to its ancestors. -/
def Node.get_closest_marker (node : Node) (m : String) : Option String :=
  node.markers.find? (fun x => x = m)

/-- The `request` context handle threaded into each fixture: the active
parameter value (when parameterized), the current fixture's name and
scope, the requesting test function and module, and the collection
node. -/
structure Request where
  fixturename : String
  scope : Scope
  param : Option String
  function_name : String
  module_name : String
  node : Node
  deriving DecidableEq, Repr

/- ------ Embedded fixtures (from `src/request_fixture.py`) ------ -/

/-- `fixture_user` (lines 153-156): a simple fixture providing user
data. -/
def fixture_user : Dict := [("username", .str "testuser"), ("id", .int 123)]

/-- `advanced_fixture` (lines 159-170): fetches `fixture_user` by name via
`request.getfixturevalue` — any resolution failure propagates unchanged —
then returns the user dict extended with `is_admin` and `accessed_by`.
The dynamic lookup is the `gfv` argument, a fallible resolver. -/
def advanced_fixture (request : Request) (gfv : String → Except String Dict) :
    Except String Dict := do
  let user ← gfv "fixture_user"
  pure ((user.set "is_admin" (.bool false)).set "accessed_by" (.str request.fixturename))

/-- `data_source` (lines 182-197): branches on the nearest marker — the
`mock_data` check comes first, then `real_data`, then the default. -/
def data_source (request : Request) : Dict :=
  match request.node.get_closest_marker "mock_data" with
  | some _ => [("type", .str "mock"), ("data", .intList [1, 2, 3, 4, 5])]
  | none =>
    match request.node.get_closest_marker "real_data" with
    | some _ => [("type", .str "real"), ("data", .intList [10, 20, 30, 40, 50])]
    | none => [("type", .str "default"), ("data", .intList [0, 0, 0])]

/-- `scenario` (lines 135-142): a parameterized fixture reading
`request.param`; accessing `param` on a non-parameterized request raises,
which the embedding renders as `none`. -/
def scenario (request : Request) : Option Dict :=
  request.param.map (fun p =>
    [("name", .str p),
     ("fixture_name", .str request.fixturename),
     ("test_name", .str request.node.name)])

/-- The parameter set declared on `scenario` (line 135). -/
def scenarioParams : List String := ["scenario1", "scenario2", "scenario3"]

/-- The observable outcome of `demonstrate_request_methods`: its returned
dictionary, the value bound to `tmp_path_value`, and its two side effects
on the resolver (one finalizer registered, one marker added). -/
structure DemoOutcome where
  ret : Dict
  tmp_path_value : Value
  finalizersRegistered : List String
  markersAdded : List String
  deriving DecidableEq, Repr

/-- `demonstrate_request_methods` (lines 7-119): reads the request's
attributes, registers `cleanup_function` as a finalizer, dynamically adds
an `xfail` marker, and looks up the `tmp_path` fixture inside
`try/except` — on any failure it binds `None` instead of propagating.
The remaining attribute reads in the body (`request.function`,
`request.config`, `request.session`, `get_closest_marker('skip')`,
`callspec`, ...) are pure reads bound to locals that do not reach the
returned dictionary and are omitted. -/
def demonstrate_request_methods (request : Request)
    (gfv : String → Except String Value) : DemoOutcome :=
  let tmp_path_value : Value :=
    match gfv "tmp_path" with
    | .ok v => v
    | .error _ => Value.pyNone
  { ret := [("fixture_name", .str request.fixturename),
            ("fixture_scope", .str request.scope.toString),
            ("test_func_name", .str request.function_name),
            ("test_module_name", .str request.module_name),
            ("test_node_name", .str request.node.name)],
    tmp_path_value := tmp_path_value,
    finalizersRegistered := ["cleanup_function"],
    markersAdded := ["xfail"] }

/-- `managed_resource` (lines 221-236): the setup builds the resource
dictionary, and `teardown` — registered via `request.addfinalizer` — is
the second component: it sets only the `status` field to `inactive`.
The pair is (returned resource, registered finalizer). -/
def managed_resource : Dict × (Dict → Dict) :=
  ([("name", .str "test_resource"), ("status", .str "active")],
   fun resource => resource.set "status" (.str "inactive"))

/- ------ Spec-modelled resolver behavior ------ -/

/-- Modelled from the spec: the external resolver instantiates a
parameterized fixture "once per value" of its declared parameter set,
threading the active value through `request.param` ("the active parameter
value (if parameterized)").  `mk` supplies the rest of the per-invocation
request context (node name, etc.); the sweep runs `scenario` once per
declared parameter. -/
def parameterSweep (mk : String → Request) : List (Option Dict) :=
  scenarioParams.map (fun p => scenario { mk p with param := some p })

/-- The `scenario["name"]` value observed by each invocation of a sweep. -/
def sweepNames (mk : String → Request) : List (Option Value) :=
  (parameterSweep mk).map (fun od => od.bind (fun d => d.get? "name"))

/-- A test body as a sequence of dictionary writes, applied in order. -/
def applyWrites (writes : List (String × Value)) (d : Dict) : Dict :=
  writes.foldl (fun acc kv => acc.set kv.1 kv.2) d

/-- Modelled from the spec: the function-scope lifecycle — "a fixture
instance is created on first request ... and destroyed (finalizers run)
when that scope's window closes — function scope closes at test end".
The resolver runs the `managed_resource` setup, then the test body's
writes, and only after the body ends invokes the registered teardown.
Returns (resource at end of the test body, resource after teardown). -/
def runManagedResourceTest (writes : List (String × Value)) : Dict × Dict :=
  let atBodyEnd := applyWrites writes managed_resource.1
  (atBodyEnd, managed_resource.2 atBodyEnd)

/-- Modelled from the spec: the resolver's finalizer queue drains by
repeatedly invoking the most recently registered pending callback until
none remain; the result is the invocation trace.  (The repository only
registers callbacks via `request.addfinalizer`; the queue itself lives in
the external resolver.) -/
def drainQueue : List α → List α
  | [] => []
  | f :: fs =>
      match (f :: fs).getLast? with
      | some g => g :: drainQueue (f :: fs).dropLast
      | none => []
termination_by l => l.length
decreasing_by
  simp [List.length_dropLast]

/-- Modelled from the spec: the invocation trace of one fixture
instantiation's finalizer queue, given whether the fixture body raised
after registering — "invoked in strict reverse-registration order,
exactly once, even if the fixture body raised": the body's outcome does
not alter which callbacks are drained. -/
def fixtureTeardownTrace (bodyRaised : Bool) (registered : List α) : List α :=
  match bodyRaised with
  | true => drainQueue registered
  | false => drainQueue registered

/- ------ Helper lemmas ------ -/

theorem Dict.get_set_self (d : Dict) (k : String) (v : Value) :
    (d.set k v).get? k = some v := by
  induction d with
  | nil => simp [Dict.set, Dict.get?]
  | cons kv rest ih =>
    obtain ⟨k', v'⟩ := kv
    by_cases h : k' = k <;> simp [Dict.set, Dict.get?, h, ih]

theorem Dict.get_set_ne (d : Dict) (k k' : String) (v : Value) (h : k' ≠ k) :
    (d.set k v).get? k' = d.get? k' := by
  induction d with
  | nil =>
    simp [Dict.set, Dict.get?]
    exact fun hk => h hk.symm
  | cons kv rest ih =>
    obtain ⟨k₀, v₀⟩ := kv
    by_cases h₀ : k₀ = k
    · subst h₀
      simp [Dict.set, Dict.get?, Ne.symm h]
    · simp [Dict.set, Dict.get?, h₀, ih]

theorem Dict.isSome_get_set (d : Dict) (k k' : String) (v : Value) :
    ((d.set k v).get? k').isSome ↔ ((d.get? k').isSome ∨ k' = k) := by
  by_cases h : k' = k
  · subst h
    simp [Dict.get_set_self]
  · simp [Dict.get_set_ne d k k' v h, h]

theorem applyWrites_get_status (writes : List (String × Value))
    (h : ∀ kv ∈ writes, kv.1 ≠ "status") (d : Dict) :
    (applyWrites writes d).get? "status" = d.get? "status" := by
  induction writes generalizing d with
  | nil => rfl
  | cons kv rest ih =>
    have hkv : kv.1 ≠ "status" := h kv (List.mem_cons_self kv rest)
    have hrest : ∀ kv' ∈ rest, kv'.1 ≠ "status" :=
      fun kv' hm => h kv' (List.mem_cons_of_mem kv hm)
    calc (applyWrites (kv :: rest) d).get? "status"
        = (applyWrites rest (d.set kv.1 kv.2)).get? "status" := rfl
      _ = (d.set kv.1 kv.2).get? "status" := ih hrest (d.set kv.1 kv.2)
      _ = d.get? "status" := Dict.get_set_ne d kv.1 "status" kv.2 (Ne.symm hkv)

theorem drainQueue_eq_reverse (l : List α) : drainQueue l = l.reverse := by
  generalize hn : l.length = n
  induction n using Nat.strong_induction_on generalizing l with
  | _ n ih =>
    match l, hn with
    | [], _ => simp [drainQueue]
    | f :: fs, hn =>
      have hne : f :: fs ≠ [] := List.cons_ne_nil f fs
      rw [drainQueue, List.getLast?_eq_getLast_of_ne_nil hne]
      have hlt : (f :: fs).dropLast.length < n := by
        rw [← hn]
        simp [List.length_dropLast]
      rw [ih (f :: fs).dropLast.length hlt (f :: fs).dropLast rfl]
      conv_rhs => rw [← List.dropLast_append_getLast hne]
      simp

/- ------ Concrete request contexts for witnesses ------ -/

/-- The request context `data_source` sees in `test_with_mock_data`
(line 200): the node carries only the `mock_data` marker. -/
def mockDataRequest : Request :=
  { fixturename := "data_source", scope := .function, param := none,
    function_name := "test_with_mock_data", module_name := "request_fixture",
    node := { name := "test_with_mock_data", markers := ["mock_data"] } }

/-- The request context `data_source` sees in `test_with_real_data`
(line 207): the node carries only the `real_data` marker. -/
def realDataRequest : Request :=
  { fixturename := "data_source", scope := .function, param := none,
    function_name := "test_with_real_data", module_name := "request_fixture",
    node := { name := "test_with_real_data", markers := ["real_data"] } }

/-- The request context `data_source` sees in `test_with_default_data`
(line 214): no marker on the node. -/
def defaultDataRequest : Request :=
  { fixturename := "data_source", scope := .function, param := none,
    function_name := "test_with_default_data", module_name := "request_fixture",
    node := { name := "test_with_default_data", markers := [] } }

/-- A request context for a hypothetical test carrying both markers, the
`real_data` marker nearer to the node than the `mock_data` marker. -/
def bothMarkersRequest : Request :=
  { fixturename := "data_source", scope := .function, param := none,
    function_name := "test_both_markers", module_name := "request_fixture",
    node := { name := "test_both_markers", markers := ["real_data", "mock_data"] } }

/- ------ Claim theorems ------ -/

/-- C1 counterexample: at a node carrying both markers with `real_data`
nearer, the nearest marker named `real_data` is present, yet
`data_source` returns the mock data set — the claim's `real_data`
conditional, read as stated, fails. -/
theorem data_source_marker_cases_counterexample :
    ¬ ((((bothMarkersRequest.node.get_closest_marker "mock_data").isSome →
          data_source bothMarkersRequest =
            [("type", .str "mock"), ("data", .intList [1, 2, 3, 4, 5])]) ∧
        ((bothMarkersRequest.node.get_closest_marker "real_data").isSome →
          data_source bothMarkersRequest =
            [("type", .str "real"), ("data", .intList [10, 20, 30, 40, 50])]) ∧
        ((bothMarkersRequest.node.get_closest_marker "mock_data") = none ∧
            (bothMarkersRequest.node.get_closest_marker "real_data") = none →
          data_source bothMarkersRequest =
            [("type", .str "default"), ("data", .intList [0, 0, 0])]))) := by
  decide

/-- C1 (amended): for every request context, if a `mock_data` marker is
present `data_source` returns the mock set; if no `mock_data` marker is
present and a `real_data` marker is present it returns the real set; and
if neither marker is present it returns the default set. -/
theorem data_source_marker_cases (req : Request) :
    ((req.node.get_closest_marker "mock_data").isSome →
      data_source req = [("type", .str "mock"), ("data", .intList [1, 2, 3, 4, 5])]) ∧
    ((req.node.get_closest_marker "mock_data") = none →
      (req.node.get_closest_marker "real_data").isSome →
      data_source req = [("type", .str "real"), ("data", .intList [10, 20, 30, 40, 50])]) ∧
    ((req.node.get_closest_marker "mock_data") = none →
      (req.node.get_closest_marker "real_data") = none →
      data_source req = [("type", .str "default"), ("data", .intList [0, 0, 0])]) := by
  rcases hm : req.node.get_closest_marker "mock_data" with _ | m <;>
    rcases hr : req.node.get_closest_marker "real_data" with _ | r <;>
      simp [data_source, hm, hr]

/-- C1 witness: the amended case analysis, applied to the request
contexts of the three marker tests in the file. -/
theorem data_source_marker_cases_witness :
    data_source mockDataRequest =
      [("type", .str "mock"), ("data", .intList [1, 2, 3, 4, 5])] ∧
    data_source realDataRequest =
      [("type", .str "real"), ("data", .intList [10, 20, 30, 40, 50])] ∧
    data_source defaultDataRequest =
      [("type", .str "default"), ("data", .intList [0, 0, 0])] :=
  ⟨(data_source_marker_cases mockDataRequest).1 (by decide),
   (data_source_marker_cases realDataRequest).2.1 (by decide) (by decide),
   (data_source_marker_cases defaultDataRequest).2.2 (by decide) (by decide)⟩

/-- C8: when both a `mock_data` and a `real_data` marker are present on
the node, `data_source` returns the mock data set: the `mock_data`
branch is tested first and takes priority regardless of which marker is
nearer. -/
theorem data_source_both_markers_mock_priority (req : Request)
    (hm : (req.node.get_closest_marker "mock_data").isSome)
    (_hr : (req.node.get_closest_marker "real_data").isSome) :
    data_source req = [("type", .str "mock"), ("data", .intList [1, 2, 3, 4, 5])] := by
  rcases hmm : req.node.get_closest_marker "mock_data" with _ | m
  · rw [hmm] at hm
    simp at hm
  · simp [data_source, hmm]

/-- C8 witness: at the both-marker node where `real_data` is the nearer
marker, the mock data set is still returned. -/
theorem data_source_both_markers_mock_priority_witness :
    data_source bothMarkersRequest =
      [("type", .str "mock"), ("data", .intList [1, 2, 3, 4, 5])] :=
  data_source_both_markers_mock_priority bothMarkersRequest (by decide) (by decide)

/-- The per-invocation request contexts of `test_parameterized_fixture`
(line 145): one node per parameter, named as pytest names parameterized
invocations. -/
def scenarioSweepRequests (p : String) : Request :=
  { fixturename := "scenario", scope := .function, param := none,
    function_name := "test_parameterized_fixture", module_name := "request_fixture",
    node := { name := "test_parameterized_fixture[" ++ p ++ "]", markers := [] } }

/-- C2: in a full parameter sweep of the `scenario` fixture, every
invocation observes as `scenario["name"]` exactly one value drawn from
the declared parameter set, and each of the three declared values is
observed exactly once across the sweep. -/
theorem scenario_sweep_names (mk : String → Request) :
    (∀ od ∈ parameterSweep mk, ∃ p, p ∈ scenarioParams ∧
        od.bind (fun d => d.get? "name") = some (.str p)) ∧
    (∀ p ∈ scenarioParams, (sweepNames mk).count (some (.str p)) = 1) := by
  constructor
  · intro od hod
    simp only [parameterSweep, scenarioParams, List.map_cons, List.map_nil,
      List.mem_cons, List.not_mem_nil, or_false] at hod
    rcases hod with h | h | h <;> subst h
    · exact ⟨"scenario1", by simp [scenarioParams], rfl⟩
    · exact ⟨"scenario2", by simp [scenarioParams], rfl⟩
    · exact ⟨"scenario3", by simp [scenarioParams], rfl⟩
  · have hsweep : sweepNames mk =
        [some (.str "scenario1"), some (.str "scenario2"), some (.str "scenario3")] := rfl
    intro p hp
    rw [hsweep]
    simp only [scenarioParams, List.mem_cons, List.not_mem_nil, or_false] at hp
    rcases hp with h | h | h <;> subst h <;> decide

/-- C2 witness: the sweep over the concrete request contexts of
`test_parameterized_fixture` observes `"scenario1"` exactly once. -/
theorem scenario_sweep_names_witness :
    (sweepNames scenarioSweepRequests).count (some (.str "scenario1")) = 1 :=
  (scenario_sweep_names scenarioSweepRequests).2 "scenario1" (by decide)

/-- The request context `advanced_fixture` sees in `test_getfixturevalue`
(line 173). -/
def advancedRequest : Request :=
  { fixturename := "advanced_fixture", scope := .function, param := none,
    function_name := "test_getfixturevalue", module_name := "request_fixture",
    node := { name := "test_getfixturevalue", markers := [] } }

/-- A resolver in whose context `fixture_user` resolves to its direct
return and every other name fails. -/
def userOnlyResolver : String → Except String Dict :=
  fun name => if name = "fixture_user" then .ok fixture_user else .error "fixture not found"

/-- C3: when `request.getfixturevalue "fixture_user"` resolves to
`fixture_user`'s direct return, the fetched value carries username
`"testuser"` and id `123` exactly as `fixture_user` returns them, and
both fields appear unchanged in `advanced_fixture`'s returned
dictionary. -/
theorem advanced_fixture_preserves_user (req : Request)
    (gfv : String → Except String Dict)
    (h : gfv "fixture_user" = Except.ok fixture_user) :
    fixture_user.get? "username" = some (.str "testuser") ∧
    fixture_user.get? "id" = some (.int 123) ∧
    ∃ res, advanced_fixture req gfv = Except.ok res ∧
      res.get? "username" = some (.str "testuser") ∧
      res.get? "id" = some (.int 123) := by
  refine ⟨rfl, rfl,
    (fixture_user.set "is_admin" (.bool false)).set "accessed_by" (.str req.fixturename),
    ?_, ?_, ?_⟩
  · simp [advanced_fixture, h]
  · rw [Dict.get_set_ne _ "accessed_by" "username" _ (by decide),
      Dict.get_set_ne _ "is_admin" "username" _ (by decide)]
    decide
  · rw [Dict.get_set_ne _ "accessed_by" "id" _ (by decide),
      Dict.get_set_ne _ "is_admin" "id" _ (by decide)]
    decide

/-- C3 witness: the preservation property at the concrete context of
`test_getfixturevalue`. -/
theorem advanced_fixture_preserves_user_witness :
    fixture_user.get? "username" = some (.str "testuser") ∧
    fixture_user.get? "id" = some (.int 123) ∧
    ∃ res, advanced_fixture advancedRequest userOnlyResolver = Except.ok res ∧
      res.get? "username" = some (.str "testuser") ∧
      res.get? "id" = some (.int 123) :=
  advanced_fixture_preserves_user advancedRequest userOnlyResolver rfl

/-- C9: whenever the dynamic lookup returns a dict `v` and the requesting
fixture is `advanced_fixture`, the returned dictionary is exactly `v`
extended with the two bindings `is_admin ↦ False` and
`accessed_by ↦ "advanced_fixture"`: both new bindings are present, every
key of `v` other than those two keeps its value from `v`, and no key
outside `v`'s keys plus the two is bound. -/
theorem advanced_fixture_extends_exactly (req : Request)
    (gfv : String → Except String Dict) (v : Dict)
    (hname : req.fixturename = "advanced_fixture")
    (hv : gfv "fixture_user" = Except.ok v) :
    ∃ res, advanced_fixture req gfv = Except.ok res ∧
      res.get? "is_admin" = some (.bool false) ∧
      res.get? "accessed_by" = some (.str "advanced_fixture") ∧
      (∀ k, k ≠ "is_admin" → k ≠ "accessed_by" → res.get? k = v.get? k) ∧
      (∀ k, ((res.get? k).isSome ↔
        ((v.get? k).isSome ∨ k = "is_admin" ∨ k = "accessed_by"))) := by
  refine ⟨(v.set "is_admin" (.bool false)).set "accessed_by" (.str req.fixturename),
    ?_, ?_, ?_, ?_, ?_⟩
  · simp [advanced_fixture, hv]
  · rw [Dict.get_set_ne _ "accessed_by" "is_admin" _ (by decide), Dict.get_set_self]
  · rw [Dict.get_set_self, hname]
  · intro k h1 h2
    rw [Dict.get_set_ne _ "accessed_by" k _ h2, Dict.get_set_ne _ "is_admin" k _ h1]
  · intro k
    rw [Dict.isSome_get_set, Dict.isSome_get_set, or_assoc]

/-- C9 witness: the exact-extension property at the concrete context of
`test_getfixturevalue`, with `v` the direct return of `fixture_user`. -/
theorem advanced_fixture_extends_exactly_witness :
    ∃ res, advanced_fixture advancedRequest userOnlyResolver = Except.ok res ∧
      res.get? "is_admin" = some (.bool false) ∧
      res.get? "accessed_by" = some (.str "advanced_fixture") ∧
      (∀ k, k ≠ "is_admin" → k ≠ "accessed_by" → res.get? k = fixture_user.get? k) ∧
      (∀ k, ((res.get? k).isSome ↔
        ((fixture_user.get? k).isSome ∨ k = "is_admin" ∨ k = "accessed_by"))) :=
  advanced_fixture_extends_exactly advancedRequest userOnlyResolver fixture_user rfl rfl

/-- The request context `demonstrate_request_methods` sees in
`test_request_methods` (line 122). -/
def demoRequest : Request :=
  { fixturename := "demonstrate_request_methods", scope := .function, param := none,
    function_name := "test_request_methods", module_name := "test_request_fixture",
    node := { name := "test_request_methods", markers := [] } }

/-- A resolver of fixture values in whose context no fixture resolves
(e.g. `tmp_path` is unavailable). -/
def failingValueResolver : String → Except String Value :=
  fun _ => .error "fixture not available in this context"

/-- C5: under the resolver contract that `request.fixturename` is the
declared identifier of the current fixture, the dictionary
`demonstrate_request_methods` returns reports
`fixture_name = "demonstrate_request_methods"`, and its `fixture_scope`
is a member of the four recognized scope strings. -/
theorem demonstrate_request_methods_name_scope (req : Request)
    (gfv : String → Except String Value)
    (h : req.fixturename = "demonstrate_request_methods") :
    (demonstrate_request_methods req gfv).ret.get? "fixture_name" =
      some (.str "demonstrate_request_methods") ∧
    ∃ s, s ∈ (["function", "class", "module", "session"] : List String) ∧
      (demonstrate_request_methods req gfv).ret.get? "fixture_scope" = some (.str s) := by
  constructor
  · have hname : (demonstrate_request_methods req gfv).ret.get? "fixture_name" =
        some (.str req.fixturename) := rfl
    rw [hname, h]
  · refine ⟨req.scope.toString, ?_, ?_⟩
    · cases req.scope <;> simp [Scope.toString]
    · rfl

/-- C5 witness: the name/scope property at the concrete context of
`test_request_methods`. -/
theorem demonstrate_request_methods_name_scope_witness :
    (demonstrate_request_methods demoRequest failingValueResolver).ret.get? "fixture_name" =
      some (.str "demonstrate_request_methods") ∧
    ∃ s, s ∈ (["function", "class", "module", "session"] : List String) ∧
      (demonstrate_request_methods demoRequest failingValueResolver).ret.get?
        "fixture_scope" = some (.str s) :=
  demonstrate_request_methods_name_scope demoRequest failingValueResolver rfl

/-- C6: the `tmp_path` lookup in `demonstrate_request_methods` is the
one recovered lookup in the repository — on any resolver failure the
fixture binds `None` to `tmp_path_value` instead of propagating (and
still returns normally) — while the only other dynamic lookup,
`advanced_fixture`'s fetch of `fixture_user`, propagates a resolution
failure unchanged. -/
theorem single_recovered_lookup (req req' : Request)
    (gfv : String → Except String Value) (gfvD : String → Except String Dict)
    (e e' : String)
    (h : gfv "tmp_path" = Except.error e)
    (h' : gfvD "fixture_user" = Except.error e') :
    (demonstrate_request_methods req gfv).tmp_path_value = Value.pyNone ∧
    advanced_fixture req' gfvD = Except.error e' := by
  constructor
  · simp [demonstrate_request_methods, h]
  · simp [advanced_fixture, h']

/-- C6 witness: with a resolver in whose context nothing resolves, the
`tmp_path` binding degrades to `None` and `advanced_fixture` fails. -/
theorem single_recovered_lookup_witness :
    (demonstrate_request_methods demoRequest failingValueResolver).tmp_path_value =
      Value.pyNone ∧
    advanced_fixture advancedRequest (fun _ => .error "no fixture_user") =
      Except.error "no fixture_user" :=
  single_recovered_lookup demoRequest advancedRequest failingValueResolver
    (fun _ => .error "no fixture_user") "fixture not available in this context"
    "no fixture_user" rfl rfl

/-- C4: for every test body over `managed_resource` that writes only to
fields other than `status`, the resource's `status` field equals
`"active"` throughout the body — after every prefix of the body's
writes, and in particular at the body's end, before the registered
teardown runs. -/
theorem managed_resource_active_during_body (writes : List (String × Value))
    (h : ∀ kv ∈ writes, kv.1 ≠ "status") :
    (∀ n, (applyWrites (writes.take n) managed_resource.1).get? "status" =
      some (.str "active")) ∧
    (runManagedResourceTest writes).1.get? "status" = some (.str "active") := by
  have hbase : managed_resource.1.get? "status" = some (.str "active") := rfl
  constructor
  · intro n
    rw [applyWrites_get_status (writes.take n)
      (fun kv hm => h kv (List.take_subset n writes hm)) managed_resource.1, hbase]
  · have hbody : (runManagedResourceTest writes).1 =
        applyWrites writes managed_resource.1 := rfl
    rw [hbody, applyWrites_get_status writes h managed_resource.1, hbase]

/-- C4 witness: the body of `test_managed_resource` performs the single
write `resource["data"] = "test data"`; the status stays active through
it. -/
theorem managed_resource_active_during_body_witness :
    (runManagedResourceTest [("data", .str "test data")]).1.get? "status" =
      some (.str "active") :=
  (managed_resource_active_during_body [("data", .str "test data")]
    (by intro kv hm; simp at hm; simp [hm])).2

/-- C10: the teardown registered by `managed_resource` sets the `status`
field to `"inactive"` and changes nothing else: for every state of the
resource dictionary, every key other than `status` — the `name` field,
equal to `"test_resource"` in the setup's resource, and any field the
test body added — keeps its value. -/
theorem managed_resource_teardown_frame (d : Dict) :
    (managed_resource.2 d).get? "status" = some (.str "inactive") ∧
    (∀ k, k ≠ "status" → (managed_resource.2 d).get? k = d.get? k) ∧
    managed_resource.1.get? "name" = some (.str "test_resource") := by
  refine ⟨?_, ?_, rfl⟩
  · exact Dict.get_set_self d "status" (.str "inactive")
  · intro k hk
    exact Dict.get_set_ne d "status" k (.str "inactive") hk

/-- C10 witness: tearing down the resource as it stands at the end of
`test_managed_resource`'s body flips `status` to inactive and leaves the
`name` field and the body-added `data` field untouched. -/
theorem managed_resource_teardown_frame_witness :
    (managed_resource.2 (runManagedResourceTest [("data", .str "test data")]).1).get?
      "status" = some (.str "inactive") ∧
    (managed_resource.2 (runManagedResourceTest [("data", .str "test data")]).1).get?
      "name" = (runManagedResourceTest [("data", .str "test data")]).1.get? "name" ∧
    (managed_resource.2 (runManagedResourceTest [("data", .str "test data")]).1).get?
      "data" = (runManagedResourceTest [("data", .str "test data")]).1.get? "data" :=
  ⟨(managed_resource_teardown_frame (runManagedResourceTest
      [("data", .str "test data")]).1).1,
   (managed_resource_teardown_frame (runManagedResourceTest
      [("data", .str "test data")]).1).2.1 "name" (by decide),
   (managed_resource_teardown_frame (runManagedResourceTest
      [("data", .str "test data")]).1).2.1 "data" (by decide)⟩

/-- C7: for every sequence of callbacks registered during one fixture
instantiation, the finalizer queue's invocation trace is exactly the
reverse of the registration sequence — so every registered callback is
invoked exactly once (counted with multiplicity), in strict
reverse-registration order — irrespective of whether the fixture body
raised after registering. -/
theorem finalizer_queue_reverse_once {α : Type} [DecidableEq α]
    (bodyRaised : Bool) (registered : List α) :
    fixtureTeardownTrace bodyRaised registered = registered.reverse ∧
    ∀ f, (fixtureTeardownTrace bodyRaised registered).count f = registered.count f := by
  have htrace : fixtureTeardownTrace bodyRaised registered = registered.reverse := by
    cases bodyRaised <;> exact drainQueue_eq_reverse registered
  exact ⟨htrace, fun f => by rw [htrace, List.count_reverse]⟩

end RequestFixture
